import Mathlib

/-!
Verification of the sandboxed code-execution engine of the repository
(`code_executor.py`). The executor compiles untrusted source with a
restricted compiler, builds an explicit capability environment
(`_create_safe_globals`), runs the compiled unit under a SIGALRM deadline
with stdout/stderr captured into in-memory sinks, and reports a uniform
`{success, output, error}` record.

The embedding is shallow: the external effects (what the restricted
compiler returns for a given source, and what executing the compiled unit
does) are modelled as explicit outcome values, and `CodeExecutor.execute`
mirrors the Python control flow over them, recording its observable
effects (environment construction, alarm calls, the local scope passed to
the run) in a `Trace`.
-/

namespace RKBot

/-- The uniform result record `{'success': ..., 'output': ..., 'error': ...}`
built and returned by `CodeExecutor.execute`. -/
structure ExecutionResult where
  success : Bool
  output : String
  error : String
deriving Repr, DecidableEq

/-- Outcome of running the compiled unit (the `exec` call) under output
capture: it terminates normally having written `stdoutValue` and
`stderrValue` to the sinks, or the SIGALRM handler fires (raising the
custom `TimeoutError`), or some other exception of type `ty` with message
`msg` is raised. -/
inductive ExecOutcome where
  | normal (stdoutValue stderrValue : String)
  | timeout
  | raises (ty msg : String)
deriving Repr, DecidableEq

/-- Behaviour of a compiled unit: what the `exec` call does as a function
of the names already bound in the local scope it is given (the executor
always hands it a fresh empty `safe_locals = {}`). -/
abbrev ExecBehavior := List String → ExecOutcome

/-- What `compile_restricted(code, ..., exec)` did for the submitted
source: raised an exception with message `msg`, returned `None`, returned
an object carrying an `errors` list, or returned a valid code object whose
execution behaves like `run`. -/
inductive CompileOutcome where
  | raises (msg : String)
  | returnsNone
  | withErrors (errors : List String)
  | ok (run : ExecBehavior)

/-- A Python exception crossing a `try` boundary inside `execute`: either
the custom `TimeoutError` raised by `_timeout_handler`, or any other
exception with its type name and message. -/
inductive PyExc where
  | timeoutErr (msg : String)
  | exc (ty msg : String)
deriving Repr, DecidableEq

/-- The `exec(compiled_code, safe_globals, safe_locals)` call as a
fallible step: a raised exception is an `Except.error`. -/
def runUnit (b : ExecBehavior) (locals : List String) : Except PyExc (String × String) :=
  match b locals with
  | .normal out err => .ok (out, err)
  | .timeout => .error (.timeoutErr "Code execution timed out")
  | .raises ty msg => .error (.exc ty msg)

/-- Observable effects of one `execute` call: whether
`_create_safe_globals` was invoked, the arguments of the `signal.alarm`
calls in order, and the local scope handed to `exec` (none when `exec`
was never reached). -/
structure Trace where
  envBuilt : Bool
  alarms : List Nat
  localsPassed : Option (List String)
deriving Repr, DecidableEq

/-- Trace of an `execute` call that returns before building the
environment or arming the timer (the compile-failure paths). -/
def tr0 : Trace := ⟨false, [], none⟩

/-- The executor object: `__init__` stores only the timeout (default 10
seconds). -/
structure CodeExecutor where
  timeout : Nat
deriving Repr, DecidableEq

/-- Trace of an `execute` call that reaches the `exec` step: the
environment is built, the alarm is armed with the configured timeout
immediately before the run and reset to 0 in the `finally` block, and a
fresh empty local scope is passed. -/
def CodeExecutor.runTrace (self : CodeExecutor) : Trace :=
  ⟨true, [self.timeout, 0], some []⟩

/-- The decision rule applied after the inner `try` around `exec`: on a
non-faulting run, non-empty stderr means failure with the stderr contents
as error text, otherwise success with the stdout contents; the
`except TimeoutError` arm reports the fixed timeout message naming the
configured value; the `except Exception` arm reports the exception type
name and message. -/
def innerDecision (timeoutVal : Nat) : Except PyExc (String × String) → ExecutionResult
  | .ok (stdoutValue, stderrValue) =>
      if stderrValue ≠ "" then ⟨false, "", stderrValue⟩
      else ⟨true, stdoutValue, ""⟩
  | .error (.timeoutErr _) =>
      ⟨false, "", "Code execution timed out after " ++ toString timeoutVal ++ " seconds"⟩
  | .error (.exc ty msg) => ⟨false, "", ty ++ ": " ++ msg⟩

/-- The body of `CodeExecutor.execute` with the outer `try` boundary made
explicit: an uncaught exception would surface as `Except.error`. Every
arm in fact produces `Except.ok`, because the compile-failure paths
return early, the inner `try` catches `TimeoutError` and `Exception`, and
the outer `try` catches `Exception` raised at the `compile_restricted`
call. The trace records that the compile-failure paths build no
environment and arm no timer, while the run path arms the alarm with the
configured timeout and resets it in `finally`. -/
def CodeExecutor.executeE (self : CodeExecutor) (cb : CompileOutcome) :
    Except PyExc (ExecutionResult × Trace) :=
  match cb with
  | .raises msg =>
      .ok (⟨false, "", "Compilation error: " ++ msg⟩, tr0)
  | .returnsNone =>
      .ok (⟨false, "", "Code compilation failed - invalid or restricted syntax"⟩, tr0)
  | .withErrors errs =>
      .ok (⟨false, "", String.intercalate "\n" errs⟩, tr0)
  | .ok run =>
      .ok (innerDecision self.timeout (runUnit run []), self.runTrace)

/-- `CodeExecutor.execute`: the result record handed back to the caller
together with the effect trace. The `Except.error` arm is unreachable
(see `executeE_never_raises`). -/
def CodeExecutor.execute (self : CodeExecutor) (cb : CompileOutcome) :
    ExecutionResult × Trace :=
  match self.executeE cb with
  | .ok r => r
  | .error _ => (⟨false, "", ""⟩, tr0)

/-- Running `execute` twice in sequence: the executor holds no mutable
state (only the timeout), and each call allocates its own local scope and
sinks, so the two calls are independent. -/
def executeTwice (self : CodeExecutor) (cb₁ cb₂ : CompileOutcome) :
    (ExecutionResult × Trace) × (ExecutionResult × Trace) :=
  (self.execute cb₁, self.execute cb₂)

/-- Whether an alarm is still armed after a sequence of `signal.alarm`
calls: the last call's argument is non-zero. -/
def armedAfter (alarms : List Nat) : Bool := (alarms.getLast?.getD 0) != 0

/-- Values bound in the globals mapping handed to `exec`: a host builtin
function bound under its name, a string, an imported module object, or a
dict (the `__builtins__` entry). -/
inductive PyVal where
  | hostFn (name : String)
  | pyStr (s : String)
  | pyModule (name : String)
  | pyDict (entries : List (String × PyVal))

/-- The enumerated `safe_builtins` dict of `_create_safe_globals`,
exactly the names listed in the source. -/
def safe_builtins : List (String × PyVal) :=
  [("abs", .hostFn "abs"), ("all", .hostFn "all"), ("any", .hostFn "any"),
   ("bin", .hostFn "bin"), ("bool", .hostFn "bool"), ("chr", .hostFn "chr"),
   ("dict", .hostFn "dict"), ("divmod", .hostFn "divmod"),
   ("enumerate", .hostFn "enumerate"), ("filter", .hostFn "filter"),
   ("float", .hostFn "float"), ("format", .hostFn "format"),
   ("hex", .hostFn "hex"), ("int", .hostFn "int"), ("len", .hostFn "len"),
   ("list", .hostFn "list"), ("map", .hostFn "map"), ("max", .hostFn "max"),
   ("min", .hostFn "min"), ("oct", .hostFn "oct"), ("ord", .hostFn "ord"),
   ("pow", .hostFn "pow"), ("print", .hostFn "print"),
   ("range", .hostFn "range"), ("reversed", .hostFn "reversed"),
   ("round", .hostFn "round"), ("set", .hostFn "set"),
   ("sorted", .hostFn "sorted"), ("str", .hostFn "str"),
   ("sum", .hostFn "sum"), ("tuple", .hostFn "tuple"),
   ("type", .hostFn "type"), ("zip", .hostFn "zip")]

/-- Lookup in a Python dict built from a key-value list where a later
entry for the same key overrides an earlier one (the semantics of the
dict literal with `**safe_modules` merged last). -/
def dictLookup : List (String × PyVal) → String → Option PyVal
  | [], _ => none
  | p :: rest, key =>
      match dictLookup rest key with
      | some v => some v
      | none => if p.1 == key then some p.2 else none

/-- `CodeExecutor._create_safe_globals`: the dict
`{'__builtins__': safe_builtins, '__name__': '__main__', **safe_modules}`
where `safe_modules` binds each name of `ALLOWED_MODULES` (the list lives
in `security_config`, so it is a parameter here) whose `__import__`
succeeds; an `ImportError` is caught, logged, and the module is simply
omitted. `resolve` models whether `__import__` succeeds for a name. -/
def create_safe_globals (allowed : List String) (resolve : String → Bool) :
    List (String × PyVal) :=
  [("__builtins__", PyVal.pyDict safe_builtins), ("__name__", PyVal.pyStr "__main__")] ++
    (allowed.filter (fun m => resolve m)).map (fun m => (m, PyVal.pyModule m))

/-- Modelled from the spec: the restricted compiler (the RestrictedPython
library, which is not under src/) rejects the input
`import os; os.system(...)` — import statements outside the allow-list
are a policy violation, reported as a non-empty violation list. -/
def importOsCompile : CompileOutcome :=
  .withErrors ["Line 1: import of os is a forbidden operation"]

/-- Modelled from the spec: executing the source `1/0` raises
`ZeroDivisionError` (division by zero), whatever the local scope. -/
def oneDivZero : ExecBehavior := fun _ => .raises "ZeroDivisionError" "division by zero"

/-- Modelled from the spec: a program that references the name `x`
unbound — if `x` is bound in the local scope it runs normally, otherwise
it raises `NameError` (the undefined-name fault). -/
def refUnbound : ExecBehavior := fun locals =>
  if locals.contains "x" then .normal "bound\n" ""
  else .raises "NameError" "name x is not defined"

theorem dictLookup_append (d₁ d₂ : List (String × PyVal)) (k : String) :
    dictLookup (d₁ ++ d₂) k =
      match dictLookup d₂ k with
      | some v => some v
      | none => dictLookup d₁ k := by
  induction d₁ with
  | nil =>
      simp only [List.nil_append, dictLookup]
      cases dictLookup d₂ k <;> rfl
  | cons p rest ih =>
      simp only [List.cons_append, dictLookup, List.append_eq, ih]
      cases dictLookup d₂ k <;> cases dictLookup rest k <;> rfl

theorem dictLookup_mem_of_isSome (d : List (String × PyVal)) (k : String)
    (h : (dictLookup d k).isSome = true) : k ∈ d.map Prod.fst := by
  induction d with
  | nil => simp [dictLookup] at h
  | cons p rest ih =>
      simp only [dictLookup] at h
      cases hr : dictLookup rest k with
      | some v => exact List.mem_cons_of_mem _ (ih (by rw [hr]; rfl))
      | none =>
          rw [hr] at h
          by_cases he : p.1 == k
          · have : p.1 = k := by exact eq_of_beq he
            simp [← this]
          · simp [he] at h

theorem dictLookup_eq_none_of_not_mem (d : List (String × PyVal)) (k : String)
    (h : k ∉ d.map Prod.fst) : dictLookup d k = none := by
  cases hd : dictLookup d k with
  | none => rfl
  | some v => exact absurd (dictLookup_mem_of_isSome d k (by rw [hd]; rfl)) h

/-- C1: the globals returned by `_create_safe_globals` are exactly the
enumerated safe builtins (under `__builtins__`), the `__name__` binding,
and the allowed modules whose import succeeded: an allowed module whose
resolution fails is simply absent from the mapping, every key present is
one of the enumerated ones (so no name from the host's ambient globals or
full builtin surface is reachable), and the `__builtins__` entry is
exactly the enumerated safe-builtin dict. -/
theorem create_safe_globals_capability_set (allowed : List String)
    (resolve : String → Bool) (m : String) (hm : m ∈ allowed)
    (hf : resolve m = false) (hb : m ≠ "__builtins__") (hn : m ≠ "__name__") :
    dictLookup (create_safe_globals allowed resolve) m = none ∧
    (∀ k, (dictLookup (create_safe_globals allowed resolve) k).isSome = true →
      k = "__builtins__" ∨ k = "__name__" ∨ (k ∈ allowed ∧ resolve k = true)) ∧
    ("__builtins__" ∉ allowed →
      dictLookup (create_safe_globals allowed resolve) "__builtins__" =
        some (PyVal.pyDict safe_builtins)) := by
  refine ⟨?_, ?_, ?_⟩
  · apply dictLookup_eq_none_of_not_mem
    simp only [create_safe_globals, List.map_append, List.map_map, List.mem_append]
    rintro (h | h)
    · simp at h
      rcases h with h | h
      · exact hb h
      · exact hn h
    · simp only [List.mem_map, Function.comp] at h
      obtain ⟨x, hx, hxm⟩ := h
      have := List.mem_filter.mp hx
      rw [hxm] at this
      simp [this.2] at hf
  · intro k hk
    have := dictLookup_mem_of_isSome _ _ hk
    simp only [create_safe_globals, List.map_append, List.map_map, List.mem_append] at this
    rcases this with h | h
    · simp at h
      rcases h with h | h
      · exact Or.inl h
      · exact Or.inr (Or.inl h)
    · simp only [List.mem_map, Function.comp] at h
      obtain ⟨x, hx, hxm⟩ := h
      have := List.mem_filter.mp hx
      rw [hxm] at this
      exact Or.inr (Or.inr this)
  · intro hnb
    rw [create_safe_globals, dictLookup_append]
    have : dictLookup
        ((allowed.filter (fun m => resolve m)).map (fun m => (m, PyVal.pyModule m)))
        "__builtins__" = none := by
      apply dictLookup_eq_none_of_not_mem
      simp only [List.map_map, List.mem_map, Function.comp]
      rintro ⟨x, hx, hxm⟩
      exact hnb (by rw [← hxm]; exact (List.mem_filter.mp hx).1)
    rw [this]
    rfl

theorem create_safe_globals_capability_set_witness :
    dictLookup (create_safe_globals ["math", "gone"] (fun s => s == "math")) "gone" =
      none ∧
    dictLookup (create_safe_globals ["math", "gone"] (fun s => s == "math"))
      "__builtins__" = some (PyVal.pyDict safe_builtins) := by
  have h := create_safe_globals_capability_set ["math", "gone"] (fun s => s == "math")
    "gone" (by simp) (by decide) (by decide) (by decide)
  exact ⟨h.1, h.2.2 (by decide)⟩

theorem executeE_never_raises (self : CodeExecutor) (cb : CompileOutcome) :
    ∃ r, self.executeE cb = Except.ok r := by
  cases cb <;> exact ⟨_, rfl⟩

/-- C2: for every source that compiles, the result follows the three-way
decision rule — a non-faulting run with non-empty stderr fails with the
stderr contents as error, a non-faulting run with empty stderr succeeds
with the stdout contents, and a non-timeout fault fails with an error of
the form `<fault kind>: <message>`; in particular the source `1/0` yields
an error beginning `ZeroDivisionError:`. -/
theorem execute_decision_rule (self : CodeExecutor) (b : ExecBehavior) :
    (∀ out err, b [] = .normal out err → err ≠ "" →
      self.execute (.ok b) = (⟨false, "", err⟩, self.runTrace)) ∧
    (∀ out, b [] = .normal out "" →
      self.execute (.ok b) = (⟨true, out, ""⟩, self.runTrace)) ∧
    (∀ ty msg, b [] = .raises ty msg →
      self.execute (.ok b) = (⟨false, "", ty ++ ": " ++ msg⟩, self.runTrace)) ∧
    (∃ rest, (self.execute (.ok oneDivZero)).1.error = "ZeroDivisionError:" ++ rest ∧
      (self.execute (.ok oneDivZero)).1.success = false) := by
  refine ⟨?_, ?_, ?_, ⟨" division by zero", rfl, rfl⟩⟩
  · intro out err hb hne
    simp [CodeExecutor.execute, CodeExecutor.executeE, runUnit, innerDecision, hb, hne]
  · intro out hb
    simp [CodeExecutor.execute, CodeExecutor.executeE, runUnit, innerDecision, hb]
  · intro ty msg hb
    simp [CodeExecutor.execute, CodeExecutor.executeE, runUnit, innerDecision, hb]

theorem execute_decision_rule_witness :
    CodeExecutor.execute ⟨10⟩ (.ok fun _ => .normal "hello\n" "") =
      (⟨true, "hello\n", ""⟩, CodeExecutor.runTrace ⟨10⟩) :=
  (execute_decision_rule ⟨10⟩ (fun _ => .normal "hello\n" "")).2.1 "hello\n" rfl

/-- C3: `execute` always hands the caller an `ExecutionResult` record —
no fault raised during compilation, environment construction, execution,
or teardown escapes the `execute` boundary as a raised fault. -/
theorem execute_no_fault_propagation (self : CodeExecutor) (cb : CompileOutcome) :
    ∃ r, self.executeE cb = Except.ok r ∧ self.execute cb = r := by
  cases cb <;> exact ⟨_, rfl, rfl⟩

/-- C4: when the run exceeds the deadline (the alarm fires and the
handler's `TimeoutError` aborts the unit), `execute` reports failure with
an error text naming the configured timeout value. -/
theorem execute_timeout (self : CodeExecutor) (b : ExecBehavior)
    (hb : b [] = .timeout) :
    self.execute (.ok b) =
      (⟨false, "",
        "Code execution timed out after " ++ toString self.timeout ++ " seconds"⟩,
       self.runTrace) := by
  simp [CodeExecutor.execute, CodeExecutor.executeE, runUnit, innerDecision, hb]

theorem execute_timeout_witness :
    CodeExecutor.execute ⟨1⟩ (.ok fun _ => .timeout) =
      (⟨false, "", "Code execution timed out after 1 seconds"⟩,
       CodeExecutor.runTrace ⟨1⟩) :=
  execute_timeout ⟨1⟩ (fun _ => .timeout) rfl

/-- C5: the deadline timer is never left armed when `execute` returns —
on every path the final `signal.alarm` call is `alarm(0)` (or the timer
was never armed at all) — and on the run path the alarm is armed with the
configured timeout immediately before the unit runs and reset in the
`finally` block. -/
theorem execute_alarm_discipline (self : CodeExecutor) (cb : CompileOutcome) :
    armedAfter (self.execute cb).2.alarms = false ∧
    (∀ b, cb = .ok b → (self.execute cb).2.alarms = [self.timeout, 0]) := by
  constructor
  · cases cb <;> rfl
  · intro b hb
    subst hb
    rfl

theorem execute_alarm_discipline_witness :
    armedAfter (CodeExecutor.execute ⟨10⟩ (.ok fun _ => .timeout)).2.alarms = false ∧
    (CodeExecutor.execute ⟨10⟩ (.ok fun _ => .timeout)).2.alarms = [10, 0] :=
  ⟨(execute_alarm_discipline ⟨10⟩ _).1,
   (execute_alarm_discipline ⟨10⟩ _).2 (fun _ => .timeout) rfl⟩

/-- C6: when the restricted compiler reports violations, `execute`
returns failure immediately with the violation messages joined by
newlines as the error text verbatim, and the trace shows no capability
environment was built and no deadline timer was armed; the other two
compile-failure shapes (a `None` result and a raised compile exception)
likewise build no environment and arm no timer. -/
theorem execute_compile_failure (self : CodeExecutor) (errs : List String)
    (msg : String) :
    self.execute (.withErrors errs) =
      (⟨false, "", String.intercalate "\n" errs⟩, tr0) ∧
    self.execute .returnsNone =
      (⟨false, "", "Code compilation failed - invalid or restricted syntax"⟩, tr0) ∧
    self.execute (.raises msg) =
      (⟨false, "", "Compilation error: " ++ msg⟩, tr0) :=
  ⟨rfl, rfl, rfl⟩

/-- C7: `success = true` implies the `error` field is empty, for every
compile outcome and run behaviour. -/
theorem execute_success_implies_no_error (self : CodeExecutor)
    (cb : CompileOutcome) (h : (self.execute cb).1.success = true) :
    (self.execute cb).1.error = "" := by
  cases cb with
  | raises msg => simp [CodeExecutor.execute, CodeExecutor.executeE] at h
  | returnsNone => simp [CodeExecutor.execute, CodeExecutor.executeE] at h
  | withErrors errs => simp [CodeExecutor.execute, CodeExecutor.executeE] at h
  | ok run =>
      cases hr : run [] with
      | normal out err =>
          by_cases he : err = ""
          · subst he
            simp [CodeExecutor.execute, CodeExecutor.executeE, runUnit, innerDecision, hr]
          · simp [CodeExecutor.execute, CodeExecutor.executeE, runUnit, innerDecision,
              hr, he] at h
      | timeout =>
          simp [CodeExecutor.execute, CodeExecutor.executeE, runUnit, innerDecision,
            hr] at h
      | raises ty msg =>
          simp [CodeExecutor.execute, CodeExecutor.executeE, runUnit, innerDecision,
            hr] at h

theorem execute_success_implies_no_error_witness :
    (CodeExecutor.execute ⟨10⟩ (.ok fun _ => .normal "ok\n" "")).1.error = "" :=
  execute_success_implies_no_error ⟨10⟩ (.ok fun _ => .normal "ok\n" "") rfl

/-- C8: the input `import os; os.system(...)` is rejected at compile time
(modelled restricted-compiler outcome): `execute` fails with the
forbidden-operation violation as error text, and the trace shows the code
never ran — no environment, no timer, no local scope passed. -/
theorem execute_import_os (self : CodeExecutor) :
    self.execute importOsCompile =
      (⟨false, "", "Line 1: import of os is a forbidden operation"⟩, tr0) :=
  rfl

/-- C9: invocations are independent — every call hands `exec` a fresh
empty local scope (or none at all when the run is never reached), a
program referencing the unbound name `x` fails with an undefined-name
error because the locals of a previous call are not visible, running the
same compile outcome twice gives identical results, and the second call's
result does not depend on the first call at all. -/
theorem execute_call_independence (self : CodeExecutor) (cb cb₂ : CompileOutcome) :
    ((self.execute cb).2.localsPassed = none ∨
      (self.execute cb).2.localsPassed = some []) ∧
    self.execute (.ok refUnbound) =
      (⟨false, "", "NameError: name x is not defined"⟩, self.runTrace) ∧
    (executeTwice self cb cb).1 = (executeTwice self cb cb).2 ∧
    (executeTwice self cb cb₂).2 = self.execute cb₂ := by
  refine ⟨?_, rfl, rfl, rfl⟩
  cases cb with
  | raises msg => exact Or.inl rfl
  | returnsNone => exact Or.inl rfl
  | withErrors errs => exact Or.inl rfl
  | ok run => exact Or.inr rfl

/-- C10: `success = false` implies the `output` field is empty — stdout
content captured on a failing run is discarded, and the compile-failure,
timeout, and fault paths never assign it. -/
theorem execute_failure_implies_no_output (self : CodeExecutor)
    (cb : CompileOutcome) (h : (self.execute cb).1.success = false) :
    (self.execute cb).1.output = "" := by
  cases cb with
  | raises msg => rfl
  | returnsNone => rfl
  | withErrors errs => rfl
  | ok run =>
      cases hr : run [] with
      | normal out err =>
          by_cases he : err = ""
          · subst he
            simp [CodeExecutor.execute, CodeExecutor.executeE, runUnit, innerDecision,
              hr] at h
          · simp [CodeExecutor.execute, CodeExecutor.executeE, runUnit, innerDecision,
              hr, he]
      | timeout =>
          simp [CodeExecutor.execute, CodeExecutor.executeE, runUnit, innerDecision, hr]
      | raises ty msg =>
          simp [CodeExecutor.execute, CodeExecutor.executeE, runUnit, innerDecision, hr]

theorem execute_failure_implies_no_output_witness :
    (CodeExecutor.execute ⟨10⟩ (.ok fun _ => .raises "ValueError" "bad")).1.output =
      "" :=
  execute_failure_implies_no_output ⟨10⟩ (.ok fun _ => .raises "ValueError" "bad") rfl

end RKBot
